import Mathlib

/-!
Verification of the time-series derivation core of `src/dashboard.py`
(a bokeh COVID dashboard).

The Python code is shallowly embedded: pandas/numpy number crunching is
modelled over exact rationals (`ℚ`), `NaN` fill markers become `Option ℚ`
(`none` is "no value"), Python dicts become association lists in insertion
order, and code that can raise a Python exception returns `Except String`.
pandas `sort_values` (an unstable sort of rows by a column) is modelled by a
concrete correct comparison sort; none of the theorems below rely on the
order of tied rows.
-/

namespace CovidDashboard

/-- Key-suffix constant `total_suff = "cumulative"` from the module header. -/
def total_suff : String := "cumulative"

/-- Key-suffix constant `delta_suff = 'daily'`. -/
def delta_suff : String := "daily"

/-- Key-suffix constant `raw = 'raw'`. -/
def raw : String := "raw"

/-- Key-suffix constant `trend = 'trend'`. -/
def trend : String := "trend"

/-- Key-suffix constant `rolling = 'rolling'`. -/
def rolling : String := "rolling"

/-- `ws_replacement = '1'`: the sentinel character used by
`replace_special_chars`. -/
def ws_replacement : Char := '1'

/-- `replace_special_chars(x)`: replaces space, hyphen, parentheses and
asterisk by `ws_replacement` (each replaced character is a single char, so
Python's chained `str.replace` is a character map). -/
def replace_special_chars (x : String) : String :=
  ⟨x.data.map (fun c =>
    if c = ' ' ∨ c = '-' ∨ c = '(' ∨ c = ')' ∨ c = '*' then ws_replacement else c)⟩

/-- Python `str.lower()` (character-wise lowering, as used on the ASCII
country names and query keys). -/
def py_lower (s : String) : String := ⟨s.data.map Char.toLower⟩

/-- The `Average` enum of dashboard.py. -/
inductive Average where
  | MEAN
  | MEDIAN
deriving DecidableEq

/-- A Python dict modelled as an association list in insertion order;
`d[k] = v` keeps the position of an existing key and appends a fresh one. -/
def pyDictSet (d : List (String × α)) (k : String) (v : α) : List (String × α) :=
  if d.any (fun kv => kv.1 == k) then
    d.map (fun kv => if kv.1 == k then (k, v) else kv)
  else d ++ [(k, v)]

/-- Python dict lookup (`d.get(k)`); with dict-comprehension construction the
last binding of a key wins, hence `getLast?` of the matching entries. -/
def pyDictGet? (d : List (String × α)) (k : String) : Option α :=
  ((d.filter (fun kv => kv.1 == k)).getLast?).map (fun kv => kv.2)

/-- Python `k in d`. -/
def pyDictHasKey (d : List (String × α)) (k : String) : Bool :=
  d.any (fun kv => kv.1 == k)

/-- The key list of a dict. -/
def keys (d : List (String × α)) : List String := d.map (fun kv => kv.1)

/-- `Series.mean()` over exact rationals. -/
def mean (xs : List ℚ) : ℚ := xs.sum / xs.length

/-- `np.median`: middle element of the sorted data, average of the two middle
elements for even length. -/
def median (xs : List ℚ) : ℚ :=
  let s := xs.insertionSort (· ≤ ·)
  if xs.length % 2 = 1 then s.getD (xs.length / 2) 0
  else (s.getD (xs.length / 2 - 1) 0 + s.getD (xs.length / 2) 0) / 2

/-- `avg_fun` of `Dashboard.get_lines`: `x.mean()` or `np.median(x)`. -/
def avg_fun (m : Average) : List ℚ → ℚ :=
  match m with
  | .MEAN => mean
  | .MEDIAN => median

/-- `series.rolling(window=w).apply(f)`: at each position the trailing window
of `w` observations (including the current one); positions with fewer than
`w` observations give `NaN` (pandas `min_periods` defaults to the window
size). -/
def rollingApply (s : List ℚ) (window : ℕ) (f : List ℚ → ℚ) : List (Option ℚ) :=
  (List.range s.length).map (fun i =>
    if i + 1 < window then none else some (f ((s.drop (i + 1 - window)).take window)))

/-- `.fillna(0)` on a series with `NaN` markers. -/
def fillna0 (s : List (Option ℚ)) : List ℚ := s.map (fun o => o.getD 0)

/-- `series.diff().fillna(0)`: first difference, first element `NaN` filled
with zero. -/
def diff_fillna0 (s : List ℚ) : List ℚ :=
  (List.range s.length).map (fun i => if i = 0 then 0 else s.getD i 0 - s.getD (i - 1) 0)

/-- `np.polyfit(xs, ys, 1)` as its closed-form normal-equation solution
(slope, intercept); this is the unique least-squares line whenever the `xs`
are not all equal, which holds for the positional indices used below. -/
def polyfit1 (xs ys : List ℚ) : ℚ × ℚ :=
  let n : ℚ := xs.length
  let sx := xs.sum
  let sy := ys.sum
  let sxy := ((xs.zip ys).map (fun p => p.1 * p.2)).sum
  let sxx := (xs.map (fun x => x * x)).sum
  let d := n * sxx - sx * sx
  ((n * sxy - sx * sy) / d, (sy * sxx - sx * sxy) / d)

/-- `Dashboard.calc_trend(y, window_size)`: one linear least-squares fit over
the last `window_size` points (positional index as x), evaluated at those
same positions; everything before is `NaN`.  Python's negative slice
`res[-w:]` is the whole array when `w = 0`, hence the `start` guard. -/
def calc_trend (y : List ℚ) (window_size : ℕ) : List (Option ℚ) :=
  let start := if window_size = 0 then 0 else y.length - window_size
  let xs : List ℚ := ((List.range y.length).drop start).map (fun i => (i : ℚ))
  let z := polyfit1 xs (y.drop start)
  (List.range y.length).map (fun i => if start ≤ i then some (z.1 * i + z.2) else none)

/-- A row of the per-country case table produced by
`create_additional_columns` (after `groupby("Country/Region").agg(sum)` and
the merge with the population table): country name, the case-column values
(cumulative counts on the shared date axis) and the merged population. -/
structure TableRow where
  country : String
  cases : List ℚ
  population : ℚ
deriving DecidableEq

/-- The seven columns `case_col[-8:-1]` of
`daily = df[case_col].diff(axis=1).fillna(0)` used by
`create_additional_columns` (Python slice `[-8:-1]` keeps positions
`max(L-8,0) .. L-2`, i.e. it drops the most recent day). -/
def seven_day_cols (cases : List ℚ) : List ℚ :=
  ((diff_fillna0 cases).drop (cases.length - 8)).dropLast

/-- Column `"7_day_average_new"`: `daily.mean(axis=1)` over those columns. -/
def seven_day_average_new (cases : List ℚ) : ℚ := mean (seven_day_cols cases)

/-- Column `"last_day"`: `daily[daily.columns[-1]]`, the last of the selected
columns, i.e. the increment at the second-to-last date. -/
def last_day (cases : List ℚ) : ℚ := (seven_day_cols cases).getLastD 0

/-- Column `"total"`: `df[case_col[-1]]`, the last cumulative value. -/
def total (cases : List ℚ) : ℚ := cases.getLastD 0

/-- Division by `Population / 1e6` used for every `_per_capita` column. -/
def per_million (v pop : ℚ) : ℚ := v / (pop / 1000000)

/-- The column `generate_table_new` sorts by: `"7_day_average_new"` or its
per-capita variant. -/
def new_avg_col (per_capita : Bool) (r : TableRow) : ℚ :=
  if per_capita then per_million (seven_day_average_new r.cases) r.population
  else seven_day_average_new r.cases

/-- The `"last_day"` column (or per-capita variant) shown by the daily
table. -/
def new_last_col (per_capita : Bool) (r : TableRow) : ℚ :=
  if per_capita then per_million (last_day r.cases) r.population
  else last_day r.cases

/-- The column `generate_table_cumulative` sorts by: `"total"` or
`"total_per_capita"`. -/
def total_col (per_capita : Bool) (r : TableRow) : ℚ :=
  if per_capita then per_million (total r.cases) r.population else total r.cases

/-- `df.sort_values(by=[col], ascending=False)`: the rows sorted descending
by the column.  pandas' default quicksort is not stable, so any correct
descending sort models it; we use a concrete comparison sort. -/
def sort_values_desc (f : TableRow → ℚ) (df : List TableRow) : List TableRow :=
  List.insertionSort (fun a b => f b ≤ f a) df

/-- `Dashboard.generate_table_new`: sorts by the (fixed) 7-day-average
column descending, then `head(-1)` (all rows but the last); the data dict
holds the `'name'`, `'number_rolling'` and `'number_daily'` columns. -/
def generate_table_new (per_capita : Bool) (df : List TableRow) :
    List String × List ℚ × List ℚ :=
  let current := (sort_values_desc (new_avg_col per_capita) df).dropLast
  (current.map (fun r => r.country),
   current.map (new_avg_col per_capita),
   current.map (new_last_col per_capita))

/-- `Dashboard.generate_table_cumulative`: sorts by the total column
descending, then `head(-1)`; holds `'name'` and `'number'`. -/
def generate_table_cumulative (per_capita : Bool) (df : List TableRow) :
    List String × List ℚ :=
  let current := (sort_values_desc (total_col per_capita) df).dropLast
  (current.map (fun r => r.country), current.map (total_col per_capita))

/-- The seven values returned by `Dashboard.get_lines`. -/
structure Lines where
  x_date : List ℕ
  absolute : List ℚ
  absolute_rolling : List ℚ
  absolute_trend : List (Option ℚ)
  new_cases : List ℚ
  new_cases_rolling : List ℚ
  new_cases_trend : List (Option ℚ)
deriving DecidableEq

/-- `Dashboard.get_lines(df, country, rolling_window)`.  The date axis is
modelled by day offsets.  When `active_per_capita` is set the population is
fetched with `float(df_population[...]['Population'])` — which raises
`TypeError` unless the filter yields exactly one row — and `factor = 1/pop`
raises `ZeroDivisionError` for a zero population; otherwise every returned
array is multiplied by `factor` (`factor = 1` without per-capita). -/
def get_lines (active_average : Average) (active_per_capita : Bool)
    (df_population : List (String × ℚ)) (df : List TableRow) (case_len : ℕ)
    (country : String) (rolling_window : ℕ) : Except String Lines :=
  let x_date := List.range case_len
  let df_sub := df.filter (fun r => r.country == country)
  let absolute := (List.range case_len).map (fun i => (df_sub.map (fun r => r.cases.getD i 0)).sum)
  let absolute_rolling := fillna0 (rollingApply absolute rolling_window (avg_fun active_average))
  let absolute_trend := calc_trend absolute rolling_window
  let new_cases := diff_fillna0 absolute
  let new_cases_rolling := fillna0 (rollingApply new_cases rolling_window (avg_fun active_average))
  let new_cases_trend := calc_trend new_cases rolling_window
  let ret := fun (factor : ℚ) => Lines.mk x_date
    (absolute.map (fun v => v * factor))
    (absolute_rolling.map (fun v => v * factor))
    (absolute_trend.map (Option.map (fun v => v * factor)))
    (new_cases.map (fun v => v * factor))
    (new_cases_rolling.map (fun v => v * factor))
    (new_cases_trend.map (Option.map (fun v => v * factor)))
  if active_per_capita then
    match (df_population.filter (fun r => r.1 == country)).map (fun r => r.2) with
    | [p] =>
      let pop := p / 1000000
      if pop = 0 then .error "ZeroDivisionError" else .ok (ret (1 / pop))
    | _ => .error "TypeError"
  else .ok (ret 1)

/-- Values stored in the flat data-source dict: a plain series, a trend
series with `NaN` markers, or the shared date axis. -/
inductive Val where
  | ser : List ℚ → Val
  | trendSer : List (Option ℚ) → Val
  | axis : List ℕ → Val
deriving DecidableEq

/-- The f-string key scheme of `get_dict_from_df`. -/
def mkKey (country cat kind variant : String) : String :=
  country ++ "_" ++ cat ++ "_" ++ kind ++ "_" ++ variant

/-- The six derived keys one country contributes for one category. -/
def six_keys (c1 cat : String) : List String :=
  [mkKey c1 cat total_suff raw, mkKey c1 cat total_suff rolling,
   mkKey c1 cat total_suff trend, mkKey c1 cat delta_suff raw,
   mkKey c1 cat delta_suff rolling, mkKey c1 cat delta_suff trend]

/-- The country loop of `Dashboard.get_dict_from_df`: for every country the
six derived series are stored under the key scheme and the shared `"x"`
entry is (re)assigned; an exception from `get_lines` aborts the loop. -/
def get_dict_loop (active_average : Average) (active_per_capita : Bool)
    (df_population : List (String × ℚ)) (df : List TableRow) (case_len : ℕ)
    (window : ℕ) (cat : String) :
    List String → List (String × Val) → Except String (List (String × Val))
  | [], d => .ok d
  | c :: rest, d =>
    match get_lines active_average active_per_capita df_population df case_len c window with
    | .error e => .error e
    | .ok l =>
      let c1 := replace_special_chars c
      let d := pyDictSet d (mkKey c1 cat total_suff raw) (Val.ser l.absolute)
      let d := pyDictSet d (mkKey c1 cat total_suff rolling) (Val.ser l.absolute_rolling)
      let d := pyDictSet d (mkKey c1 cat total_suff trend) (Val.trendSer l.absolute_trend)
      let d := pyDictSet d (mkKey c1 cat delta_suff raw) (Val.ser l.new_cases)
      let d := pyDictSet d (mkKey c1 cat delta_suff rolling) (Val.ser l.new_cases_rolling)
      let d := pyDictSet d (mkKey c1 cat delta_suff trend) (Val.trendSer l.new_cases_trend)
      let d := pyDictSet d "x" (Val.axis l.x_date)
      get_dict_loop active_average active_per_capita df_population df case_len window cat rest d

/-- `Dashboard.get_dict_from_df(df, country_list, prefix)`: builds the flat
dataset starting from an empty dict. -/
def get_dict_from_df (active_average : Average) (active_per_capita : Bool)
    (df_population : List (String × ℚ)) (df : List TableRow) (case_len : ℕ)
    (window : ℕ) (country_list : List String) (cat : String) :
    Except String (List (String × Val)) :=
  get_dict_loop active_average active_per_capita df_population df case_len window cat
    country_list []

/-- The mutable dashboard state touched by the parameter callbacks
(`active_*` fields, the selected countries, the flat data source and the two
ranking-table sources). -/
structure DashState where
  active_average : Average
  active_per_capita : Bool
  active_window_size : ℕ
  active_cat : String
  country_list : List String
  source_data : List (String × Val)
  top_new_data : List String × List ℚ × List ℚ
  top_total_data : List String × List ℚ
deriving DecidableEq

/-- `Dashboard.update_data(attrname, old, new)`: assigns the country list,
then recomputes `source.data`; if the recomputation raises, the assignment
to `source.data` never happens and the exception propagates (first
component), while all attribute mutations made so far persist. -/
def update_data (df_population : List (String × ℚ)) (df : List TableRow)
    (case_len : ℕ) (st : DashState) (new : List String) :
    Except String Unit × DashState :=
  let st1 := { st with country_list := new }
  match get_dict_from_df st1.active_average st1.active_per_capita df_population df
      case_len st1.active_window_size st1.country_list st1.active_cat with
  | .ok d => (.ok (), { st1 with source_data := d })
  | .error e => (.error e, st1)

/-- `Dashboard.update_capita(new)`: flips `active_per_capita` first, then
regenerates both ranking tables, then redraws via `update_data`. -/
def update_capita (df_population : List (String × ℚ)) (df : List TableRow)
    (case_len : ℕ) (st : DashState) (new : ℕ) :
    Except String Unit × DashState :=
  let st1 := { st with active_per_capita := if new = 0 then false else true }
  let st2 := { st1 with top_new_data := generate_table_new st1.active_per_capita df }
  let st3 := { st2 with top_total_data := generate_table_cumulative st2.active_per_capita df }
  update_data df_population df case_len st3 st3.country_list

/-- `Dashboard.update_window_size(attr, old, new)`: assigns the new window
size first, then redraws. -/
def update_window_size (df_population : List (String × ℚ)) (df : List TableRow)
    (case_len : ℕ) (st : DashState) (new : ℕ) :
    Except String Unit × DashState :=
  let st1 := { st with active_window_size := new }
  update_data df_population df case_len st1 st1.country_list

/-- `countries_lower_dict = {x.lower(): x for x in unique_countries}`. -/
def countries_lower_dict (unique_countries : List String) : List (String × String) :=
  unique_countries.map (fun x => (py_lower x, x))

/-- The country resolution of `parse_arguments`:
`[dict[c.lower()] for c in vals if c.lower() in dict]` — a guarded dict
lookup, i.e. a `filterMap`. -/
def resolve_countries (unique_countries : List String) (inputs : List String) : List String :=
  inputs.filterMap (fun c => pyDictGet? (countries_lower_dict unique_countries) (py_lower c))

/-- The country part of `parse_arguments(args)`: keys are lowercased, the
`'country'` values are resolved, and an absent key or an empty resolution
falls back to `['Germany']`. -/
def parse_country_arg (unique_countries : List String)
    (args : List (String × List String)) : List String :=
  let args1 := args.map (fun kv => (py_lower kv.1, kv.2))
  let country_list1 :=
    match pyDictGet? args1 "country" with
    | some vs => resolve_countries unique_countries vs
    | none => ["Germany"]
  if country_list1 = [] then ["Germany"] else country_list1

/-- Modelled from the spec (§4.4 / claim C7): the claimed ranking metric,
"each country's trailing `window_size`-day average of daily new counts".
This definition follows the spec's words (it is not in the source, whose
table uses a fixed 7-day column) and exists only to be compared with
`seven_day_average_new`. -/
def claimed_trailing_average (window_size : ℕ) (cases : List ℚ) : ℚ :=
  mean ((diff_fillna0 cases).drop (cases.length - window_size))

/-! ## Helper lemmas -/

/-- Reading a position of a `List.range`-built series. -/
theorem range_map_getD {α : Type} (f : ℕ → α) (L i : ℕ) (hd : α) (h : i < L) :
    ((List.range L).map f).getD i hd = f i := by
  simp [List.getD_eq_getElem?_getD, List.getElem?_map, List.getElem?_range h]

/-- Number of elements of `range L` that are at least `s`. -/
theorem countP_range_ge (L s : ℕ) :
    (List.range L).countP (fun i => decide (s ≤ i)) = L - s := by
  induction L with
  | zero => simp
  | succ n ih =>
    rw [List.range_succ, List.countP_append, ih]
    by_cases h : s ≤ n
    · simp only [List.countP_cons, List.countP_nil]
      rw [if_pos (by simpa using h)]
      omega
    · simp only [List.countP_cons, List.countP_nil]
      rw [if_neg (by simpa using h)]
      omega

/-- Count of defined positions in an `if s ≤ i`-guarded range series. -/
theorem countP_isSome_ite {α : Type} (L s : ℕ) (g : ℕ → α) :
    ((List.range L).map (fun i => if s ≤ i then some (g i) else none)).countP
      (fun o => o.isSome) = L - s := by
  induction L with
  | zero => simp
  | succ n ih =>
    rw [List.range_succ, List.map_append, List.countP_append, ih]
    by_cases h : s ≤ n
    · simp only [List.map_cons, List.map_nil, List.countP_cons, List.countP_nil, if_pos h]
      simp
      omega
    · simp only [List.map_cons, List.map_nil, List.countP_cons, List.countP_nil, if_neg h]
      simp
      omega

/-! ## Claim C2 -/

/-- Claim C2: for a series of length `L ≥ w` (`w ≥ 1`, per the spec's
window-size invariant), `calc_trend` output has length `L`, is defined ("not
NaN") exactly at the final `w` positions, and has exactly `w` defined
entries; the defined values all come from the single least-squares fit in
the definition of `calc_trend`. -/
theorem calc_trend_trailing_window (y : List ℚ) (w : ℕ) (h1 : 1 ≤ w) (h2 : w ≤ y.length) :
    (calc_trend y w).length = y.length ∧
    (∀ i, i < y.length → (((calc_trend y w).getD i none).isSome ↔ y.length - w ≤ i)) ∧
    (calc_trend y w).countP (fun o => o.isSome) = w := by
  have hw0 : ¬ w = 0 := by omega
  have hcal : calc_trend y w = (List.range y.length).map (fun i =>
      if y.length - w ≤ i then
        some ((polyfit1 (((List.range y.length).drop (y.length - w)).map (fun j => (j : ℚ)))
            (y.drop (y.length - w))).1 * i +
          (polyfit1 (((List.range y.length).drop (y.length - w)).map (fun j => (j : ℚ)))
            (y.drop (y.length - w))).2)
      else none) := by
    rw [calc_trend]
    simp only [if_neg hw0]
  refine ⟨by simp [hcal], ?_, ?_⟩
  · intro i hi
    rw [hcal, range_map_getD _ _ _ _ hi]
    by_cases hle : y.length - w ≤ i <;> simp [hle]
  · rw [hcal, countP_isSome_ite]
    omega

/-- Witness for C2 at the concrete series `[0, 1, 2]` with window 2. -/
theorem calc_trend_trailing_window_witness :
    (calc_trend [0, 1, 2] 2).countP (fun o => o.isSome) = 2 :=
  (calc_trend_trailing_window [0, 1, 2] 2 (by norm_num) (by norm_num)).2.2

/-! ## Claim C3 -/

/-- Claim C3 counterexample: the claim says the rolling output is entirely
zero whenever `w ≥ length(series)`; but at `w = length = 2` the final
position has a full window and gets the window mean (here 1), not zero. -/
theorem rolling_full_window_counterexample :
    fillna0 (rollingApply [1, 1] 2 (avg_fun Average.MEAN)) = [0, 1] := by
  norm_num [fillna0, rollingApply, avg_fun, mean, List.range_succ]

/-- Claim C3 (amended): the rolling output equals the trailing-`w` aggregate
under `m` at every position with at least `w` observations and zero at every
position with fewer; consequently it is entirely zero when `w` is strictly
greater than the series length. -/
theorem rolling_window_boundary (s : List ℚ) (w : ℕ) (m : Average) :
    (fillna0 (rollingApply s w (avg_fun m))).length = s.length ∧
    (∀ i, i < s.length →
      (i + 1 < w → (fillna0 (rollingApply s w (avg_fun m))).getD i 0 = 0) ∧
      (w ≤ i + 1 → (fillna0 (rollingApply s w (avg_fun m))).getD i 0 =
        avg_fun m ((s.drop (i + 1 - w)).take w))) ∧
    (s.length < w → ∀ i, i < s.length →
      (fillna0 (rollingApply s w (avg_fun m))).getD i 0 = 0) := by
  have key : ∀ i, i < s.length → (fillna0 (rollingApply s w (avg_fun m))).getD i 0 =
      if i + 1 < w then 0 else avg_fun m ((s.drop (i + 1 - w)).take w) := by
    intro i hi
    rw [fillna0, rollingApply, List.map_map]
    rw [range_map_getD _ _ _ _ hi]
    by_cases h : i + 1 < w <;> simp [h]
  refine ⟨by simp [fillna0, rollingApply], ?_, ?_⟩
  · intro i hi
    constructor
    · intro h
      rw [key i hi, if_pos h]
    · intro h
      rw [key i hi, if_neg (by omega)]
  · intro hlw i hi
    rw [key i hi, if_pos (by omega)]

/-- Witness for C3 at `s = [5, 7]`, `w = 3`: all positions are zero. -/
theorem rolling_window_boundary_witness :
    (fillna0 (rollingApply [5, 7] 3 (avg_fun Average.MEAN))).getD 1 0 = 0 :=
  (rolling_window_boundary [5, 7] 3 Average.MEAN).2.2 (by norm_num) 1 (by norm_num)

/-! ## Claim C4 -/

/-- Claim C4: `daily_raw = cumulative.diff().fillna(0)` starts with zero and
cumulative-summing round-trips:
`cumulative[i] = cumulative[0] + sum(daily_raw[1..i])`. -/
theorem daily_raw_roundtrip (s : List ℚ) (i : ℕ) (h : i < s.length) :
    (diff_fillna0 s).getD 0 0 = 0 ∧
    s.getD i 0 = s.getD 0 0 + (((diff_fillna0 s).drop 1).take i).sum := by
  have hlen : (diff_fillna0 s).length = s.length := by simp [diff_fillna0]
  have h0 : (diff_fillna0 s).getD 0 0 = 0 := by
    rw [diff_fillna0, range_map_getD _ _ _ _ (by omega)]
    simp
  refine ⟨h0, ?_⟩
  induction i with
  | zero => simp
  | succ n ih =>
    have hn : n < s.length := by omega
    have hlt : n < ((diff_fillna0 s).drop 1).length := by
      rw [List.length_drop, hlen]
      omega
    rw [List.sum_take_succ _ n hlt]
    have helem : ((diff_fillna0 s).drop 1)[n] = s.getD (n + 1) 0 - s.getD n 0 := by
      rw [List.getElem_drop]
      have h1n : 1 + n < (List.range s.length).length := by simp; omega
      simp only [diff_fillna0, List.getElem_map, List.getElem_range]
      rw [if_neg (by omega)]
      congr 1 <;> congr 1 <;> omega
    rw [helem]
    have := ih hn
    linarith

/-- Witness for C4 at the cumulative series `[3, 5, 9]`, `i = 2`. -/
theorem daily_raw_roundtrip_witness :
    ([3, 5, 9] : List ℚ).getD 2 0 = ([3, 5, 9] : List ℚ).getD 0 0 +
      (((diff_fillna0 [3, 5, 9]).drop 1).take 2).sum :=
  (daily_raw_roundtrip [3, 5, 9] 2 (by norm_num)).2

/-! ## Claim C5 -/

/-- Claim C5: for a country whose population lookup yields a single positive
value `p`, deriving with per-capita enabled equals deriving with per-capita
disabled and then dividing every entry of all six derived arrays by
`p / 1e6` (the date axis is untouched). -/
theorem get_lines_per_capita_linear (avg : Average) (pop : List (String × ℚ))
    (df : List TableRow) (case_len : ℕ) (c : String) (w : ℕ) (p : ℚ)
    (hp : (pop.filter (fun r => r.1 == c)).map (fun r => r.2) = [p]) (hpos : 0 < p) :
    ∃ l : Lines, get_lines avg false pop df case_len c w = .ok l ∧
      get_lines avg true pop df case_len c w = .ok (Lines.mk l.x_date
        (l.absolute.map (fun v => v / (p / 1000000)))
        (l.absolute_rolling.map (fun v => v / (p / 1000000)))
        (l.absolute_trend.map (Option.map (fun v => v / (p / 1000000))))
        (l.new_cases.map (fun v => v / (p / 1000000)))
        (l.new_cases_rolling.map (fun v => v / (p / 1000000)))
        (l.new_cases_trend.map (Option.map (fun v => v / (p / 1000000))))) := by
  have hp0 : p ≠ 0 := ne_of_gt hpos
  have hne : p / 1000000 ≠ 0 := by
    intro h
    rw [div_eq_zero_iff] at h
    rcases h with h | h
    · exact absurd h hp0
    · norm_num at h
  refine ⟨_, rfl, ?_⟩
  simp only [get_lines, hp, if_neg hne, ite_true]
  congr 1
  simp only [List.map_map, Option.map_comp_map, Function.comp_def]
  congr 1 <;>
    first
      | rfl
      | (refine List.map_congr_left fun x _ => ?_
         first
           | ring1
           | (cases x with
              | none => rfl
              | some v =>
                simp only [Option.map_some']
                congr 1
                field_simp))

/-- Witness for C5: a one-entry population table with population 2e6. -/
theorem get_lines_per_capita_linear_witness :
    ∃ l : Lines, get_lines Average.MEAN false [("G", 2000000)] [] 0 "G" 7 = .ok l ∧
      get_lines Average.MEAN true [("G", 2000000)] [] 0 "G" 7 = .ok (Lines.mk l.x_date
        (l.absolute.map (fun v => v / (2000000 / 1000000)))
        (l.absolute_rolling.map (fun v => v / (2000000 / 1000000)))
        (l.absolute_trend.map (Option.map (fun v => v / (2000000 / 1000000))))
        (l.new_cases.map (fun v => v / (2000000 / 1000000)))
        (l.new_cases_rolling.map (fun v => v / (2000000 / 1000000)))
        (l.new_cases_trend.map (Option.map (fun v => v / (2000000 / 1000000))))) :=
  get_lines_per_capita_linear Average.MEAN [("G", 2000000)] [] 0 "G" 7 2000000
    (by simp) (by norm_num)

/-! ## Claims C1 and C7: the ranking tables -/

/-- `sort_values_desc` is sorted descending by the column. -/
theorem sorted_sort_values_desc (f : TableRow → ℚ) (df : List TableRow) :
    List.Sorted (fun a b => f b ≤ f a) (sort_values_desc f df) := by
  haveI : IsTotal TableRow (fun a b => f b ≤ f a) := ⟨fun a b => le_total (f b) (f a)⟩
  haveI : IsTrans TableRow (fun a b => f b ≤ f a) := ⟨fun _ _ _ h1 h2 => le_trans h2 h1⟩
  exact List.sorted_insertionSort _ df

/-- `sort_values_desc` permutes the table rows. -/
theorem perm_sort_values_desc (f : TableRow → ℚ) (df : List TableRow) :
    (sort_values_desc f df).Perm df := List.perm_insertionSort _ df

/-- Structure of `sort_values(...).head(-1)` on a nonempty table: the rows
kept are the whole table minus one row whose column value is minimal, and
the kept column values are sorted descending. -/
theorem rank_drop_min (f : TableRow → ℚ) (df : List TableRow) (h : df ≠ []) :
    ∃ m, m ∈ df ∧ (∀ r ∈ df, f m ≤ f r) ∧
      ((((sort_values_desc f df).dropLast).map (fun r => r.country)) ++ [m.country]).Perm
        (df.map (fun r => r.country)) ∧
      List.Sorted (fun a b : ℚ => b ≤ a) (((sort_values_desc f df).dropLast).map f) := by
  have hperm : (sort_values_desc f df).Perm df := perm_sort_values_desc f df
  have hsort : List.Sorted (fun a b => f b ≤ f a) (sort_values_desc f df) :=
    sorted_sort_values_desc f df
  have hne : sort_values_desc f df ≠ [] := by
    intro h0
    exact h (List.Perm.eq_nil (h0 ▸ hperm.symm))
  have hsplit := List.dropLast_append_getLast hne
  refine ⟨(sort_values_desc f df).getLast hne, hperm.subset (List.getLast_mem hne), ?_, ?_, ?_⟩
  · intro r hr
    have hrs : r ∈ sort_values_desc f df := hperm.mem_iff.mpr hr
    rw [← hsplit] at hrs
    have hpw := hsort
    rw [← hsplit] at hpw
    have hpw2 := List.pairwise_append.1 hpw
    rcases List.mem_append.mp hrs with h1 | h2
    · exact hpw2.2.2 r h1 _ (List.mem_singleton_self _)
    · rw [List.mem_singleton.mp h2]
  · have heq : (((sort_values_desc f df).dropLast).map (fun r => r.country)) ++
        [((sort_values_desc f df).getLast hne).country] =
        (sort_values_desc f df).map (fun r => r.country) := by
      conv_rhs => rw [← hsplit]
      simp
    rw [heq]
    exact hperm.map _
  · have hpw : List.Pairwise (fun a b => f b ≤ f a) ((sort_values_desc f df).dropLast) :=
      List.Pairwise.sublist (List.dropLast_sublist _) hsort
    exact List.Pairwise.map f (fun a b hab => hab) hpw

/-- Claim C1 counterexample: the two-country cumulative ranking scenario
from the spec.  `head(-1)` drops the LAST row of the descending sort, so
with A (total 100) and B (total 50) the ranking contains only A — the claim
predicts only B. -/
theorem generate_table_cumulative_counterexample :
    (generate_table_cumulative false [⟨"A", [100], 1⟩, ⟨"B", [50], 1⟩]).1 = ["A"] := by
  norm_num [generate_table_cumulative, sort_values_desc, total_col, total,
    List.insertionSort, List.orderedInsert]

/-- Claim C1 (amended): for every per-capita setting (and category — the
category only selects which table is passed in), both ranking views are
sorted descending by their metric column and exclude a single
lowest-ranked (not highest-ranked) entry. -/
theorem ranking_tables_sorted_drop_lowest (per_capita : Bool) (df : List TableRow)
    (h : df ≠ []) :
    (∃ m, m ∈ df ∧ (∀ r ∈ df, total_col per_capita m ≤ total_col per_capita r) ∧
      ((generate_table_cumulative per_capita df).1 ++ [m.country]).Perm
        (df.map (fun r => r.country)) ∧
      List.Sorted (fun a b : ℚ => b ≤ a) (generate_table_cumulative per_capita df).2) ∧
    (∃ m, m ∈ df ∧ (∀ r ∈ df, new_avg_col per_capita m ≤ new_avg_col per_capita r) ∧
      ((generate_table_new per_capita df).1 ++ [m.country]).Perm
        (df.map (fun r => r.country)) ∧
      List.Sorted (fun a b : ℚ => b ≤ a) (generate_table_new per_capita df).2.1) := by
  constructor
  · simp only [generate_table_cumulative]
    exact rank_drop_min (total_col per_capita) df h
  · simp only [generate_table_new]
    exact rank_drop_min (new_avg_col per_capita) df h

/-- Witness for (amended) C1 at the two-country table A (total 100),
B (total 50). -/
theorem ranking_tables_sorted_drop_lowest_witness :
    (∃ m, m ∈ ([⟨"A", [100], 1⟩, ⟨"B", [50], 1⟩] : List TableRow) ∧
      (∀ r ∈ ([⟨"A", [100], 1⟩, ⟨"B", [50], 1⟩] : List TableRow),
        total_col false m ≤ total_col false r) ∧
      ((generate_table_cumulative false [⟨"A", [100], 1⟩, ⟨"B", [50], 1⟩]).1 ++
        [m.country]).Perm
        (([⟨"A", [100], 1⟩, ⟨"B", [50], 1⟩] : List TableRow).map (fun r => r.country)) ∧
      List.Sorted (fun a b : ℚ => b ≤ a)
        (generate_table_cumulative false [⟨"A", [100], 1⟩, ⟨"B", [50], 1⟩]).2) ∧
    (∃ m, m ∈ ([⟨"A", [100], 1⟩, ⟨"B", [50], 1⟩] : List TableRow) ∧
      (∀ r ∈ ([⟨"A", [100], 1⟩, ⟨"B", [50], 1⟩] : List TableRow),
        new_avg_col false m ≤ new_avg_col false r) ∧
      ((generate_table_new false [⟨"A", [100], 1⟩, ⟨"B", [50], 1⟩]).1 ++
        [m.country]).Perm
        (([⟨"A", [100], 1⟩, ⟨"B", [50], 1⟩] : List TableRow).map (fun r => r.country)) ∧
      List.Sorted (fun a b : ℚ => b ≤ a)
        (generate_table_new false [⟨"A", [100], 1⟩, ⟨"B", [50], 1⟩]).2.1) :=
  ranking_tables_sorted_drop_lowest false [⟨"A", [100], 1⟩, ⟨"B", [50], 1⟩] (by simp)

/-- Claim C7 counterexample: with `window_size = 1` the claimed metric is
the most recent daily increment.  The code's table (here `["B", "C"]` after
the drop) is NOT sorted descending by that metric: B's trailing-1-day
average (0) is below C's (50); the code instead sorted by the fixed 7-day
column that excludes the most recent day (B: 10, C: 5). -/
theorem generate_table_new_counterexample :
    (generate_table_new false
      [⟨"A", [0, 0, 0, 0, 0, 0, 0, 0, 0, 100], 1⟩,
       ⟨"B", [0, 10, 20, 30, 40, 50, 60, 70, 80, 80], 1⟩,
       ⟨"C", [0, 0, 5, 10, 15, 20, 25, 30, 35, 85], 1⟩]).1 = ["B", "C"] ∧
    claimed_trailing_average 1 [0, 10, 20, 30, 40, 50, 60, 70, 80, 80] <
      claimed_trailing_average 1 [0, 0, 5, 10, 15, 20, 25, 30, 35, 85] := by
  constructor
  · norm_num [generate_table_new, sort_values_desc, new_avg_col, seven_day_average_new,
      seven_day_cols, diff_fillna0, mean, List.insertionSort, List.orderedInsert,
      List.range_succ]
  · norm_num [claimed_trailing_average, diff_fillna0, mean, List.range_succ]

/-- Claim C7 (amended): the by-latest-daily-average ranking is sorted
descending by the precomputed `"7_day_average_new"` column — the mean of the
seven daily increments ending at the second-to-last date, a fixed window
independent of the view's `window_size` and excluding the most recent day —
with one minimal row dropped; tie order is not guaranteed (pandas' default
sort is not stable). -/
theorem generate_table_new_ranking (per_capita : Bool) (df : List TableRow) (h : df ≠ []) :
    (generate_table_new per_capita df).1 =
      ((sort_values_desc (new_avg_col per_capita) df).dropLast).map (fun r => r.country) ∧
    (∀ r : TableRow, new_avg_col false r =
      mean (((diff_fillna0 r.cases).drop (r.cases.length - 8)).dropLast)) ∧
    List.Sorted (fun a b : ℚ => b ≤ a) (generate_table_new per_capita df).2.1 ∧
    ∃ m ∈ df, (∀ r ∈ df, new_avg_col per_capita m ≤ new_avg_col per_capita r) ∧
      ((generate_table_new per_capita df).1 ++ [m.country]).Perm
        (df.map (fun r => r.country)) := by
  obtain ⟨m, hm, hmin, hperm, hsorted⟩ := rank_drop_min (new_avg_col per_capita) df h
  refine ⟨rfl, fun r => rfl, ?_, m, hm, hmin, ?_⟩
  · simpa [generate_table_new] using hsorted
  · simpa [generate_table_new] using hperm

/-- Witness for (amended) C7 at a one-row table. -/
theorem generate_table_new_ranking_witness :
    (generate_table_new false [⟨"D", [], 0⟩]).1 =
      ((sort_values_desc (new_avg_col false) [⟨"D", [], 0⟩]).dropLast).map
        (fun r => r.country) ∧
    (∀ r : TableRow, new_avg_col false r =
      mean (((diff_fillna0 r.cases).drop (r.cases.length - 8)).dropLast)) ∧
    List.Sorted (fun a b : ℚ => b ≤ a) (generate_table_new false [⟨"D", [], 0⟩]).2.1 ∧
    ∃ m ∈ ([⟨"D", [], 0⟩] : List TableRow),
      (∀ r ∈ ([⟨"D", [], 0⟩] : List TableRow), new_avg_col false m ≤ new_avg_col false r) ∧
      ((generate_table_new false [⟨"D", [], 0⟩]).1 ++ [m.country]).Perm
        (([⟨"D", [], 0⟩] : List TableRow).map (fun r => r.country)) :=
  generate_table_new_ranking false [⟨"D", [], 0⟩] (by simp)

/-! ## Claim C6: the key scheme of the flat dataset -/

/-- Splitting a character list at the first `'_'` is unambiguous. -/
theorem append_underscore_inj : ∀ (a b r r' : List Char), '_' ∉ a → '_' ∉ b →
    a ++ '_' :: r = b ++ '_' :: r' → a = b ∧ r = r' := by
  intro a
  induction a with
  | nil =>
    intro b r r' _ hb h
    cases b with
    | nil => simpa using h
    | cons c bs =>
      simp only [List.nil_append, List.cons_append, List.cons.injEq] at h
      exact absurd (h.1 ▸ List.mem_cons_self c bs) hb
  | cons c as ih =>
    intro b r r' ha hb h
    cases b with
    | nil =>
      simp only [List.nil_append, List.cons_append, List.cons.injEq] at h
      exact absurd (h.1 ▸ List.mem_cons_self c as) ha
    | cons c2 bs =>
      simp only [List.cons_append, List.cons.injEq] at h
      obtain ⟨hc, ht⟩ := h
      have hrec := ih bs r r' (fun hm => ha (List.mem_cons_of_mem _ hm))
        (fun hm => hb (List.mem_cons_of_mem _ hm)) ht
      exact ⟨by rw [hc, hrec.1], hrec.2⟩

/-- The character decomposition of a flat-dataset key. -/
theorem mkKey_data (c cat k v : String) :
    (mkKey c cat k v).data =
      c.data ++ '_' :: (cat.data ++ '_' :: (k.data ++ '_' :: v.data)) := by
  have hu : ("_" : String).data = ['_'] := rfl
  simp [mkKey, hu, List.append_assoc]

/-- Keys agree on their category component: if two keys built from
underscore-free country and category tokens coincide, the categories
coincide. -/
theorem mkKey_cat_inj {c c2 cat cat2 k k2 v v2 : String}
    (hc : '_' ∉ c.data) (hc2 : '_' ∉ c2.data)
    (hcat : '_' ∉ cat.data) (hcat2 : '_' ∉ cat2.data)
    (h : mkKey c cat k v = mkKey c2 cat2 k2 v2) : cat = cat2 := by
  have hd := congrArg String.data h
  rw [mkKey_data, mkKey_data] at hd
  obtain ⟨_, h2⟩ := append_underscore_inj _ _ _ _ hc hc2 hd
  obtain ⟨h3, _⟩ := append_underscore_inj _ _ _ _ hcat hcat2 h2
  exact String.ext h3

/-- `replace_special_chars` never introduces an underscore. -/
theorem replace_special_chars_no_underscore (c : String) (h : '_' ∉ c.data) :
    '_' ∉ (replace_special_chars c).data := by
  intro hm
  rw [show (replace_special_chars c).data = c.data.map (fun ch =>
      if ch = ' ' ∨ ch = '-' ∨ ch = '(' ∨ ch = ')' ∨ ch = '*' then ws_replacement else ch)
    from rfl] at hm
  rw [List.mem_map] at hm
  obtain ⟨ch, hch, heq⟩ := hm
  by_cases hcond : ch = ' ' ∨ ch = '-' ∨ ch = '(' ∨ ch = ')' ∨ ch = '*'
  · rw [if_pos hcond] at heq
    exact absurd heq (by decide)
  · rw [if_neg hcond] at heq
    exact h (heq ▸ hch)

/-- Key membership after a Python dict assignment. -/
theorem mem_keys_pyDictSet {α : Type} (d : List (String × α)) (k : String) (v : α)
    (k2 : String) : k2 ∈ keys (pyDictSet d k v) ↔ k2 ∈ keys d ∨ k2 = k := by
  by_cases h : d.any (fun kv => kv.1 == k)
  · have hwit : ∃ kv ∈ d, kv.1 = k := by
      obtain ⟨kv, hkv, hk⟩ := List.any_eq_true.mp h
      exact ⟨kv, hkv, by simpa using hk⟩
    rw [pyDictSet, if_pos h]
    simp only [keys, List.map_map, List.mem_map, Function.comp_def]
    constructor
    · rintro ⟨a, ha, hfa⟩
      by_cases hk : a.1 = k
      · right
        rw [if_pos (by simpa using hk)] at hfa
        exact hfa.symm
      · left
        rw [if_neg (by simpa using hk)] at hfa
        exact ⟨a, ha, hfa⟩
    · rintro (⟨a, ha, hfa⟩ | rfl)
      · by_cases hk : a.1 = k
        · obtain ⟨kw, hkw, hkwk⟩ := hwit
          refine ⟨kw, hkw, ?_⟩
          rw [if_pos (by simpa using hkwk)]
          show k = k2
          rw [← hfa, hk]
        · exact ⟨a, ha, by rw [if_neg (by simpa using hk)]; exact hfa⟩
      · obtain ⟨kw, hkw, hkwk⟩ := hwit
        refine ⟨kw, hkw, ?_⟩
        rw [if_pos (by simpa using hkwk)]
  · rw [pyDictSet, if_neg h]
    simp [keys]

/-- A member of the six keys of a country/category is a `mkKey`. -/
theorem mem_six_keys {k c1 cat : String} (h : k ∈ six_keys c1 cat) :
    ∃ kk vv, k = mkKey c1 cat kk vv := by
  simp only [six_keys, List.mem_cons, List.not_mem_nil, or_false] at h
  rcases h with h | h | h | h | h | h <;> exact ⟨_, _, h⟩

set_option maxHeartbeats 1600000 in
/-- The country loop of `get_dict_from_df` with per-capita off never raises,
and the keys it adds to the accumulator are exactly the shared `"x"` entry
(for a nonempty remaining list) plus the six keys of each remaining
country. -/
theorem get_dict_loop_keys (avg : Average) (pop : List (String × ℚ)) (df : List TableRow)
    (case_len w : ℕ) (cat : String) :
    ∀ (cs : List String) (d0 : List (String × Val)),
      ∃ d, get_dict_loop avg false pop df case_len w cat cs d0 = .ok d ∧
        ∀ k, k ∈ keys d ↔
          (k ∈ keys d0 ∨ (cs ≠ [] ∧ k = "x") ∨
            ∃ c ∈ cs, k ∈ six_keys (replace_special_chars c) cat) := by
  intro cs
  induction cs with
  | nil =>
    intro d0
    exact ⟨d0, rfl, by simp⟩
  | cons c rest ih =>
    intro d0
    cases hgl : get_lines avg false pop df case_len c w with
    | error e =>
      exfalso
      simp [get_lines] at hgl
    | ok l =>
      obtain ⟨d, hd, hiff⟩ := ih (pyDictSet (pyDictSet (pyDictSet (pyDictSet (pyDictSet
        (pyDictSet (pyDictSet d0
          (mkKey (replace_special_chars c) cat total_suff raw) (Val.ser l.absolute))
          (mkKey (replace_special_chars c) cat total_suff rolling) (Val.ser l.absolute_rolling))
          (mkKey (replace_special_chars c) cat total_suff trend) (Val.trendSer l.absolute_trend))
          (mkKey (replace_special_chars c) cat delta_suff raw) (Val.ser l.new_cases))
          (mkKey (replace_special_chars c) cat delta_suff rolling) (Val.ser l.new_cases_rolling))
          (mkKey (replace_special_chars c) cat delta_suff trend) (Val.trendSer l.new_cases_trend))
          "x" (Val.axis l.x_date))
      refine ⟨d, ?_, ?_⟩
      · simp only [get_dict_loop, hgl]
        exact hd
      · intro k
        rw [hiff k]
        simp only [mem_keys_pyDictSet, six_keys, List.exists_mem_cons_iff, List.mem_cons,
          List.not_mem_nil, or_false, ne_eq, reduceCtorEq, not_false_iff, true_and]
        aesop

/-- Claim C6 counterexample: with an empty country list the flat dataset is
the empty dict, so it does not contain the key `"x"` the claim requires. -/
theorem get_dict_empty_counterexample :
    get_dict_from_df Average.MEAN false [] [] 0 7 [] "confirmed" = .ok [] ∧
    "x" ∉ keys ([] : List (String × Val)) :=
  ⟨rfl, by simp [keys]⟩

/-- Claim C6 (amended): for every NONEMPTY country list and category, the
flat dataset's key set is exactly one `"x"` plus the six
`country_category_kind_variant` keys per listed country (country token
normalised by `replace_special_chars`); and after changing only the
category no series key of the previous category remains. -/
theorem get_dict_keys_categories (avg : Average) (pop : List (String × ℚ))
    (df : List TableRow) (case_len w : ℕ) (cs : List String) (cat cat2 : String)
    (hne : cs ≠ [])
    (hcat : cat ∈ ["confirmed", "deaths", "recovered"])
    (hcat2 : cat2 ∈ ["confirmed", "deaths", "recovered"])
    (hdiff : cat ≠ cat2)
    (hus : ∀ c ∈ cs, '_' ∉ c.data) :
    ∀ d d2, get_dict_from_df avg false pop df case_len w cs cat = .ok d →
      get_dict_from_df avg false pop df case_len w cs cat2 = .ok d2 →
      (∀ k, k ∈ keys d ↔
        (k = "x" ∨ ∃ c ∈ cs, k ∈ six_keys (replace_special_chars c) cat)) ∧
      (∀ k, k ∈ keys d2 → k ≠ "x" → k ∉ keys d) := by
  have hcatu : '_' ∉ cat.data := by
    simp only [List.mem_cons, List.not_mem_nil, or_false] at hcat
    rcases hcat with h | h | h <;> subst h <;> decide
  have hcat2u : '_' ∉ cat2.data := by
    simp only [List.mem_cons, List.not_mem_nil, or_false] at hcat2
    rcases hcat2 with h | h | h <;> subst h <;> decide
  intro d d2 hd hd2
  obtain ⟨da, hda, hiffa⟩ := get_dict_loop_keys avg pop df case_len w cat cs []
  obtain ⟨db, hdb, hiffb⟩ := get_dict_loop_keys avg pop df case_len w cat2 cs []
  rw [get_dict_from_df, hda] at hd
  rw [get_dict_from_df, hdb] at hd2
  have hda2 : da = d := by injection hd
  have hdb2 : db = d2 := by injection hd2
  subst hda2
  subst hdb2
  constructor
  · intro k
    rw [hiffa k]
    simp [keys, hne]
  · intro k hk hkx hcontra
    rw [hiffa k] at hcontra
    rw [hiffb k] at hk
    rcases hk with hk | hk | ⟨c2, hc2, hk6⟩
    · simp [keys] at hk
    · exact hkx hk.2
    rcases hcontra with hcontra | hcontra | ⟨c1, hc1, hk6b⟩
    · simp [keys] at hcontra
    · exact hkx hcontra.2
    obtain ⟨kk, vv, hkeq⟩ := mem_six_keys hk6
    obtain ⟨kk2, vv2, hkeq2⟩ := mem_six_keys hk6b
    have hinj := mkKey_cat_inj
      (replace_special_chars_no_underscore c1 (hus c1 hc1))
      (replace_special_chars_no_underscore c2 (hus c2 hc2))
      hcatu hcat2u (hkeq2.symm.trans hkeq)
    exact hdiff hinj

/-- Witness for (amended) C6: two singleton-country datasets for the
categories `"confirmed"` and `"deaths"` over an empty table are disjoint on
their series keys. -/
theorem get_dict_keys_categories_witness :
    ("Germany_deaths_cumulative_raw" : String) ∉ keys
      [("Germany_confirmed_cumulative_raw", Val.ser []),
       ("Germany_confirmed_cumulative_rolling", Val.ser []),
       ("Germany_confirmed_cumulative_trend", Val.trendSer []),
       ("Germany_confirmed_daily_raw", Val.ser []),
       ("Germany_confirmed_daily_rolling", Val.ser []),
       ("Germany_confirmed_daily_trend", Val.trendSer []),
       ("x", Val.axis [])] := by
  have h := (get_dict_keys_categories Average.MEAN [] [] 0 7 ["Germany"]
    "confirmed" "deaths" (by simp) (by simp) (by simp) (by decide)
    (by intro c hc; simp only [List.mem_singleton] at hc; subst hc; decide)
    _ _ rfl rfl).2 "Germany_deaths_cumulative_raw"
  exact h (by decide) (by decide)

/-! ## Claim C8: error behaviour of per-capita recomputation -/

/-- Claim C8 counterexample: toggling per-capita on with a zero-population
country raises `ZeroDivisionError` (not an `InvalidParameterError`, which
does not exist in the code) AND the per-capita flag — part of the view
parameters, `false` before the call — has already been flipped to `true`
when the exception propagates, so the previous ViewParameters are NOT left
unchanged. -/
theorem update_capita_counterexample :
    (update_capita [("X", 0)] [⟨"X", [1, 2], 0⟩] 2
      (DashState.mk Average.MEAN false 7 "confirmed" ["X"] []
        ([], [], []) ([], [])) 1).1 = .error "ZeroDivisionError" ∧
    (update_capita [("X", 0)] [⟨"X", [1, 2], 0⟩] 2
      (DashState.mk Average.MEAN false 7 "confirmed" ["X"] []
        ([], [], []) ([], [])) 1).2.active_per_capita = true := by
  constructor <;>
    simp [update_capita, update_data, get_dict_from_df, get_dict_loop, get_lines]

/-- Claim C8 (amended): when per-capita derivation is requested (`new ≠ 0`)
for a selected country whose population row is missing or zero, the
recomputation raises a built-in error (`TypeError` / `ZeroDivisionError`),
the flat dataset keeps its previous value — but the per-capita flag keeps
its new value, i.e. the ViewParameters are partially mutated, not left
unchanged. -/
theorem update_capita_invalid_population (pop : List (String × ℚ)) (df : List TableRow)
    (case_len : ℕ) (st : DashState) (new : ℕ) (c : String)
    (hnew : new ≠ 0) (hlist : st.country_list = [c])
    (hpop : (pop.filter (fun r => r.1 == c)).map (fun r => r.2) = [] ∨
      (pop.filter (fun r => r.1 == c)).map (fun r => r.2) = [0]) :
    ∃ e, (update_capita pop df case_len st new).1 = .error e ∧
      (update_capita pop df case_len st new).2.source_data = st.source_data ∧
      (update_capita pop df case_len st new).2.active_per_capita = true := by
  rcases hpop with hpop | hpop
  · refine ⟨"TypeError", ?_, ?_, ?_⟩ <;>
      simp [update_capita, update_data, get_dict_from_df, get_dict_loop, get_lines,
        hlist, hpop, hnew]
  · refine ⟨"ZeroDivisionError", ?_, ?_, ?_⟩ <;>
      simp [update_capita, update_data, get_dict_from_df, get_dict_loop, get_lines,
        hlist, hpop, hnew]

/-- Witness for (amended) C8 at a concrete state with a zero population. -/
theorem update_capita_invalid_population_witness :
    ∃ e, (update_capita [("Y", 0)] [] 0
        (DashState.mk Average.MEAN false 7 "confirmed" ["Y"] []
          ([], [], []) ([], [])) 1).1 = .error e ∧
      (update_capita [("Y", 0)] [] 0
        (DashState.mk Average.MEAN false 7 "confirmed" ["Y"] []
          ([], [], []) ([], [])) 1).2.source_data =
        (DashState.mk Average.MEAN false 7 "confirmed" ["Y"] []
          ([], [], []) ([], []) : DashState).source_data ∧
      (update_capita [("Y", 0)] [] 0
        (DashState.mk Average.MEAN false 7 "confirmed" ["Y"] []
          ([], [], []) ([], [])) 1).2.active_per_capita = true :=
  update_capita_invalid_population [("Y", 0)] [] 0
    (DashState.mk Average.MEAN false 7 "confirmed" ["Y"] [] ([], [], []) ([], []))
    1 "Y" (by decide) rfl (Or.inr (by simp))

/-! ## Claims C9 and C10: country resolution and argument parsing -/

/-- The last element of a nonempty list all of whose members equal `x`. -/
theorem getLast?_all_eq {α : Type} : ∀ (l : List α) (x : α), l ≠ [] →
    (∀ e ∈ l, e = x) → l.getLast? = some x := by
  intro l
  induction l with
  | nil => intro x h _; exact absurd rfl h
  | cons a t ih =>
    intro x _ hall
    cases t with
    | nil =>
      rw [show a = x from hall a (by simp)]
      rfl
    | cons b t2 =>
      rw [List.getLast?_cons_cons]
      exact ih x (by simp) (fun e he => hall e (List.mem_cons_of_mem _ he))

/-- Successful case-insensitive lookup: an input whose lowercase form
matches a known country resolves to that canonical identifier (assuming the
known identifiers have distinct lowercase forms). -/
theorem countries_lower_dict_lookup_found (known : List String) (c k : String)
    (hinj : ∀ k1 ∈ known, ∀ k2 ∈ known, py_lower k1 = py_lower k2 → k1 = k2)
    (hk : k ∈ known) (hmatch : py_lower c = py_lower k) :
    pyDictGet? (countries_lower_dict known) (py_lower c) = some k := by
  rw [pyDictGet?, countries_lower_dict, List.filter_map]
  have hfil : k ∈ known.filter (fun x => py_lower x == py_lower c) :=
    List.mem_filter.mpr ⟨hk, by simpa using hmatch.symm⟩
  have hall : ∀ e ∈ (known.filter (fun x => py_lower x == py_lower c)).map
      (fun x => (py_lower x, x)), e = (py_lower k, k) := by
    intro e he
    rw [List.mem_map] at he
    obtain ⟨x, hx, hex⟩ := he
    have hx2 := List.mem_filter.mp hx
    have hxl : py_lower x = py_lower c := by simpa using hx2.2
    have hxk : x = k := hinj x hx2.1 k hk (hxl.trans hmatch)
    rw [← hex, hxk]
  have hne2 : (known.filter (fun x => py_lower x == py_lower c)).map
      (fun x => (py_lower x, x)) ≠ [] := by
    simp only [ne_eq, List.map_eq_nil_iff]
    intro hf
    rw [hf] at hfil
    exact List.not_mem_nil _ hfil
  rw [show (List.filter ((fun kv => kv.1 == py_lower c) ∘ fun x => (py_lower x, x)) known) =
      known.filter (fun x => py_lower x == py_lower c) from rfl]
  rw [getLast?_all_eq _ _ hne2 hall]
  rfl

/-- Failed lookup: an input matching no known country (case-insensitively)
yields no resolution. -/
theorem countries_lower_dict_lookup_none (known : List String) (c : String)
    (hmatch : ∀ k ∈ known, py_lower c ≠ py_lower k) :
    pyDictGet? (countries_lower_dict known) (py_lower c) = none := by
  rw [pyDictGet?, countries_lower_dict, List.filter_map]
  have hfil : known.filter (fun x => py_lower x == py_lower c) = [] := by
    rw [List.filter_eq_nil_iff]
    intro a ha
    simp only [beq_iff_eq]
    exact fun h => hmatch a ha h.symm
  rw [show (List.filter ((fun kv => kv.1 == py_lower c) ∘ fun x => (py_lower x, x)) known) =
      known.filter (fun x => py_lower x == py_lower c) from rfl]
  rw [hfil]
  rfl

/-- Claim C9: country resolution is a case-insensitive exact lookup — an
input whose lowercase form matches a known identifier contributes that
canonical identifier to the resolved list, and a non-matching input is
silently dropped (no exception; the resolution is a total function). -/
theorem resolve_country_lookup (known : List String) (c : String) (rest : List String)
    (hinj : ∀ k1 ∈ known, ∀ k2 ∈ known, py_lower k1 = py_lower k2 → k1 = k2) :
    (∀ k ∈ known, py_lower c = py_lower k →
      resolve_countries known (c :: rest) = k :: resolve_countries known rest) ∧
    ((∀ k ∈ known, py_lower c ≠ py_lower k) →
      resolve_countries known (c :: rest) = resolve_countries known rest) := by
  constructor
  · intro k hk hm
    rw [resolve_countries, List.filterMap_cons,
      countries_lower_dict_lookup_found known c k hinj hk hm]
    rfl
  · intro hm
    rw [resolve_countries, List.filterMap_cons,
      countries_lower_dict_lookup_none known c hm]
    rfl

/-- Witness for C9: `"gErMaNy"` resolves to `"Germany"`; `"Atlantis"` is
dropped silently. -/
theorem resolve_country_lookup_witness :
    resolve_countries ["Germany", "France"] ["gErMaNy"] = ["Germany"] ∧
    resolve_countries ["Germany", "France"] ["Atlantis"] = [] := by
  constructor
  · have h := (resolve_country_lookup ["Germany", "France"] "gErMaNy" []
      (by decide)).1 "Germany" (by decide) (by decide)
    simpa using h
  · have h := (resolve_country_lookup ["Germany", "France"] "Atlantis" []
      (by decide)).2 (by decide)
    simpa using h

/-- Claim C10: when the (lowercased) request arguments have no `'country'`
key, or every supplied country fails resolution, the parsed country list
defaults to exactly `['Germany']`. -/
theorem parse_arguments_country_default (known : List String)
    (args : List (String × List String)) :
    (pyDictGet? (args.map (fun kv => (py_lower kv.1, kv.2))) "country" = none →
      parse_country_arg known args = ["Germany"]) ∧
    (∀ vs, pyDictGet? (args.map (fun kv => (py_lower kv.1, kv.2))) "country" = some vs →
      (∀ c ∈ vs, ∀ k ∈ known, py_lower c ≠ py_lower k) →
      parse_country_arg known args = ["Germany"]) := by
  constructor
  · intro h
    simp only [parse_country_arg, h]
    rfl
  · intro vs h hm
    have hres : resolve_countries known vs = [] := by
      rw [resolve_countries, List.filterMap_eq_nil_iff]
      intro c hc
      exact countries_lower_dict_lookup_none known c (hm c hc)
    simp only [parse_country_arg, h, hres]
    simp

/-- Witness for C10: a `'Country'` argument whose only value fails
resolution falls back to `['Germany']`. -/
theorem parse_arguments_country_default_witness :
    parse_country_arg ["Germany"] [("Country", ["Atlantis"])] = ["Germany"] :=
  (parse_arguments_country_default ["Germany"] [("Country", ["Atlantis"])]).2
    ["Atlantis"] (by decide) (by decide)

end CovidDashboard
